import Mathlib

/-!
Verification of the `dillema` command-line wrapper (src/dillema/commands.py
and src/dillema/cli.py).

The code shells out to external processes and an external serving runtime;
we embed it shallowly as pure functions:

* `start_cluster` returns `Except String (List String)`: `.error msg` means
  the function raised `ValueError msg` before any subprocess invocation;
  `.ok args` means it invoked the Process Runner (`_run_ray_subprocess`)
  exactly once with argument list `args`.  The source makes at most one
  Process Runner call per invocation, so this captures the trace exactly.
* `_run_ray_subprocess` is parameterised by an `ExecEnv` describing what the
  operating system would do: whether the `ray` executable is on the search
  path, and what each `subprocess.run` invocation yields (`none` models a
  `FileNotFoundError` being raised; `some c` models the process exiting
  with code `c`).
* `deploy_model` returns the `ServeAction` it would submit to the serving
  runtime: the HTTP options handed to `serve.start`, the `LLMConfig`, and
  the blocking flag of `serve.run`.
* The `start --web` branch of `cli.main` is embedded as `webStart`, which
  returns the ordered trace of process events together with a flag telling
  whether an exception propagated to the caller.
* The top-level `except (ValueError, CommandExecutionError, RuntimeError)`
  clause of `cli.main` is embedded as `cliHandle`.

Python string primitives (`str.strip`, `str.rsplit`, `str.replace`) are
re-implemented on `List Char` with structural recursion so that every
definition evaluates inside the kernel.
-/

namespace Dillema

/-! ### Python string primitives on `List Char` -/

/-- Decide whether `pat` is a leading segment of `s` (used by `replaceAll`). -/
def isPre : List Char → List Char → Bool
  | [], _ => true
  | _ :: _, [] => false
  | p :: ps, c :: cs => p == c && isPre ps cs

/-- Fuel-driven worker for `replaceAll`: scans `s` left to right, replacing
each leftmost non-overlapping occurrence of `pat` by `repl`, exactly as
Python `str.replace` does for a non-empty pattern. -/
def replaceAllAux (pat repl : List Char) : Nat → List Char → List Char
  | 0, s => s
  | _ + 1, [] => []
  | fuel + 1, c :: rest =>
    if isPre pat (c :: rest) then
      repl ++ replaceAllAux pat repl fuel ((c :: rest).drop pat.length)
    else
      c :: replaceAllAux pat repl fuel rest

/-- Python `s.replace(pat, repl)` for a non-empty pattern (every pattern
used by the source is non-empty). -/
def replaceAll (pat repl s : List Char) : List Char :=
  if pat.isEmpty then s else replaceAllAux pat repl s.length s

/-- Last field of the Python split `s.rsplit(sep, maxsplit=1)[-1]`: the
characters after the last occurrence of `sep`, or all of `s` when `sep`
does not occur. -/
def afterLastSep (sep : Char) : List Char → List Char
  | [] => []
  | c :: rest =>
    if rest.contains sep then afterLastSep sep rest
    else if c == sep then rest
    else c :: rest

/-- Character class of Python `strip("'\"")`: single or double quote. -/
def quoteChar (c : Char) : Bool :=
  c == Char.ofNat 39 || c == Char.ofNat 34

/-- Python `s.strip("'\"")` on `List Char`: remove every leading and every
trailing quote character. -/
def pyStripQuotesL (s : List Char) : List Char :=
  ((s.dropWhile quoteChar).reverse.dropWhile quoteChar).reverse

/-- Python `s.strip("'\"")` on `String`. -/
def stripQuotes (s : String) : String :=
  ⟨pyStripQuotesL s.data⟩

/-! ### `commands.py`: StartOptions and start_cluster -/

/-- The `StartOptions` dataclass of `commands.py`. -/
structure StartOptions where
  head : Bool
  worker : Bool
  address : Option String
  dashboard_host : String
deriving DecidableEq

/-- Python truthiness of the `Optional[str]` field `options.address`:
`None` and the empty string are falsy. -/
def addressTruthy : Option String → Bool
  | none => false
  | some s => !s.isEmpty

/-- `start_cluster` of `commands.py`.  `.error msg` is a raised
`ValueError msg` with no Process Runner call; `.ok args` is the single
Process Runner invocation with argument list `args`. -/
def start_cluster (options : StartOptions) : Except String (List String) :=
  if options.head == options.worker then
    .error "Specify exactly one of --head or --worker"
  else if options.head then
    .ok ["start", "--head", "--dashboard-host=" ++ options.dashboard_host]
  else if !addressTruthy options.address then
    .error "--address is required when starting a worker node"
  else
    .ok ["start", "--address=" ++ stripQuotes ((options.address).getD "")]

/-- `show_status` of `commands.py`: the single Process Runner invocation. -/
def show_status : List String := ["status"]

/-! ### `commands.py`: the Process Runner `_run_ray_subprocess` -/

/-- What the operating system does when `_run_ray_subprocess` runs: whether
`shutil.which("ray")` finds an executable (and at which path), the
interpreter path `sys.executable`, and the outcome of each
`subprocess.run(cmd)` call — `none` is a raised `FileNotFoundError`,
`some c` is an exit with code `c`. -/
structure ExecEnv where
  rayOnPath : Bool
  rayPath : String
  sysExecutable : String
  run : List String → Option Nat

/-- The command `_run_ray_subprocess` first attempts: `[ray, *args]` when
`ray` is on the search path, else the module-invocation form. -/
def primaryCommand (env : ExecEnv) (args : List String) : List String :=
  if env.rayOnPath then env.rayPath :: args
  else env.sysExecutable :: "-m" :: "ray" :: args

/-- The fallback command built inside the `except FileNotFoundError`
handler: `[sys.executable, "-m", "ray", *args]`. -/
def fallbackCommand (env : ExecEnv) (args : List String) : List String :=
  env.sysExecutable :: "-m" :: "ray" :: args

/-- The message `' '.join(cmd)` interpolated into `CommandExecutionError`. -/
def joinArgs (cmd : List String) : String :=
  String.intercalate " " cmd

/-- Result of `_run_ray_subprocess`: normal return, a raised
`CommandExecutionError msg`, or an uncaught `FileNotFoundError` (raised by
the fallback invocation, which only catches `CalledProcessError`). -/
inductive RunOutcome where
  | success
  | cmdError (msg : String)
  | fileNotFound
deriving DecidableEq

/-- `_run_ray_subprocess` of `commands.py`: run the primary command; on
`FileNotFoundError` run the fallback command; translate a non-zero exit
code of either attempt into `CommandExecutionError` carrying the attempted
argument vector. -/
def _run_ray_subprocess (env : ExecEnv) (args : List String) : RunOutcome :=
  match env.run (primaryCommand env args) with
  | some 0 => .success
  | some _ =>
    .cmdError ("Ray command failed: " ++ joinArgs (primaryCommand env args))
  | none =>
    match env.run (fallbackCommand env args) with
    | some 0 => .success
    | some _ =>
      .cmdError ("Ray command failed: " ++ joinArgs (fallbackCommand env args))
    | none => .fileNotFound

/-! ### `commands.py`: deploy_model -/

/-- Python `model_id or _derive_model_id(...)`: `None` and `""` are falsy. -/
def orElseStr (v : Option String) (d : String) : String :=
  match v with
  | none => d
  | some s => if s.isEmpty then d else s

/-- The pattern `"-Instruct"` removed by `_derive_model_id`. -/
def instructPat : List Char := "-Instruct".data

/-- The `sanitized` local of `_derive_model_id`: candidate after the last
`/`, with every `"-Instruct"` occurrence removed and every underscore
replaced by a hyphen. -/
def _derive_sanitized (model_source : String) : List Char :=
  (replaceAll instructPat [] (afterLastSep '/' model_source.data)).map
    (fun c => if c == '_' then '-' else c)

/-- `_derive_model_id` of `commands.py`: the sanitized candidate, or the
constant `"llm"` when it is empty (Python `sanitized or "llm"`). -/
def _derive_model_id (model_source : String) : String :=
  let sanitized := _derive_sanitized model_source
  if sanitized.isEmpty then "llm" else ⟨sanitized⟩

/-- The `model_loading_config` dict of the `LLMConfig`. -/
structure ModelLoadingConfig where
  model_id : String
  model_source : String
deriving DecidableEq

/-- The `autoscaling_config` dict inside `deployment_config`. -/
structure AutoscalingConfig where
  min_replicas : Nat
  max_replicas : Nat
deriving DecidableEq

/-- The `engine_kwargs` dict of the `LLMConfig`. -/
structure EngineKwargs where
  tensor_parallel_size : Nat
  pipeline_parallel_size : Nat
  trust_remote_code : Bool
  gpu_memory_utilization : Rat
  max_model_len : Nat
deriving DecidableEq

/-- The `LLMConfig` object submitted to the serving runtime; `env_vars` is
the insertion-ordered `runtime_env["env_vars"]` map. -/
structure LLMConfig where
  model_loading_config : ModelLoadingConfig
  autoscaling_config : AutoscalingConfig
  engine_kwargs : EngineKwargs
  env_vars : List (String × String)
deriving DecidableEq

/-- The `http_options` dict handed to `serve.start`. -/
structure HttpOptions where
  host : String
  port : Nat
deriving DecidableEq

/-- Everything `deploy_model` hands to the external serving runtime. -/
structure ServeAction where
  http_options : HttpOptions
  llm_config : LLMConfig
  blocking : Bool
deriving DecidableEq

/-- `deploy_model` of `commands.py` as the serving action it submits.  The
`runtime_interface` parameter is accepted but, as in the source (where the
override lines are commented out), never read. -/
def deploy_model (model_source : String) (model_id : Option String)
    (http_host : String) (http_port : Nat) (tensor_parallel_size : Nat)
    (pipeline_parallel_size : Nat) (gpu_memory_utilization : Rat)
    (max_model_len : Nat) (runtime_interface : Option String) : ServeAction :=
  let inferred_id := orElseStr model_id (_derive_model_id model_source)
  let env_vars : List (String × String) :=
    [("VLLM_USE_V1", "1"),
     ("GLOO_SOCKET_IFNAME", "enp132s0"),
     ("NCCL_SOCKET_IFNAME", "enp132s0")]
  { http_options := { host := http_host, port := http_port }
    llm_config :=
      { model_loading_config :=
          { model_id := inferred_id, model_source := model_source }
        autoscaling_config := { min_replicas := 1, max_replicas := 1 }
        engine_kwargs :=
          { tensor_parallel_size := tensor_parallel_size
            pipeline_parallel_size := pipeline_parallel_size
            trust_remote_code := true
            gpu_memory_utilization := gpu_memory_utilization
            max_model_len := max_model_len }
        env_vars := env_vars }
    blocking := true }

/-! ### `cli.py`: the `start --web` branch of `main` -/

/-- The flags of the `start --web` branch (other `start` flags do not reach
this branch). -/
structure WebOpts where
  no_docker : Bool
  no_migrate : Bool
  no_npm_build : Bool
  web_host : String
  web_port : Nat
deriving DecidableEq

/-- How the environment behaves during the `--web` branch: whether each
blocking `subprocess.run` step exits with code 0, and `sys.executable`. -/
structure WebEnv where
  dockerOk : Bool
  migrateOk : Bool
  npmOk : Bool
  sysExecutable : String

/-- Events of the `--web` branch trace: a blocking `subprocess.run`
(with whether it succeeded), a background `subprocess.Popen`, a
`terminate()` of the background process, and a `wait()` on it. -/
inductive WebEvent where
  | runSync (cmd : List String) (ok : Bool)
  | spawnProc (cmd : List String)
  | terminateProc
  | waitProc
deriving DecidableEq

/-- `shlex.split("sudo docker compose up -d")`. -/
def dockerCmd : List String := ["sudo", "docker", "compose", "up", "-d"]

/-- `[sys.executable, "-m", "alembic", "upgrade", "head"]`. -/
def alembicCmd (py : String) : List String :=
  [py, "-m", "alembic", "upgrade", "head"]

/-- The `web_cmd` list launching uvicorn via `subprocess.Popen`. -/
def uvicornCmd (py host : String) (port : Nat) : List String :=
  [py, "-m", "uvicorn", "app.main:app", "--host", host, "--port", toString port]

/-- `shlex.split("npm run build")`. -/
def npmCmd : List String := ["npm", "run", "build"]

/-- The `start --web` branch of `cli.main`: the ordered trace of process
events, and whether an exception propagated to the caller (each failing
`subprocess.run` is printed and re-raised; a failing `npm run build`
additionally terminates the background uvicorn process first). -/
def webStart (o : WebOpts) (env : WebEnv) : List WebEvent × Bool :=
  if !o.no_docker && !env.dockerOk then
    ([.runSync dockerCmd false], true)
  else
    let t1 : List WebEvent :=
      if o.no_docker then [] else [.runSync dockerCmd true]
    if !o.no_migrate && !env.migrateOk then
      (t1 ++ [.runSync (alembicCmd env.sysExecutable) false], true)
    else
      let t2 : List WebEvent :=
        t1 ++ (if o.no_migrate then [] else [.runSync (alembicCmd env.sysExecutable) true])
      let t3 : List WebEvent :=
        t2 ++ [.spawnProc (uvicornCmd env.sysExecutable o.web_host o.web_port)]
      if !o.no_npm_build && !env.npmOk then
        (t3 ++ [.runSync npmCmd false, .terminateProc], true)
      else
        let t4 : List WebEvent :=
          t3 ++ (if o.no_npm_build then [] else [.runSync npmCmd true])
        (t4 ++ [.waitProc], false)

/-- Whether an event launches a subprocess (blocking or background). -/
def isLaunch : WebEvent → Bool
  | .runSync _ _ => true
  | .spawnProc _ => true
  | .terminateProc => false
  | .waitProc => false

/-- Number of subprocesses launched along a trace. -/
def launchCount (events : List WebEvent) : Nat :=
  (events.filter isLaunch).length

/-! ### `cli.py`: top-level exception mapping of `main` -/

/-- The exceptions relevant to the `except` clause of `cli.main`.
`CommandExecutionError` subclasses `RuntimeError` in the source but is
listed separately, matching the tuple in the `except` clause; `otherError`
stands for every exception of any other type. -/
inductive PyError where
  | valueError (msg : String)
  | commandExecutionError (msg : String)
  | runtimeError (msg : String)
  | otherError (msg : String)
deriving DecidableEq

/-- How `cli.main` terminates: normal return (exit status 0),
`parser.exit(status, message)`, or an uncaught exception propagating. -/
inductive CliResult where
  | exit0
  | exitWithError (status : Nat) (message : String)
  | uncaught (e : PyError)
deriving DecidableEq

/-- Message text of an exception (Python `f"{exc}"`). -/
def errMessage : PyError → String
  | .valueError m => m
  | .commandExecutionError m => m
  | .runtimeError m => m
  | .otherError m => m

/-- Whether the `except (ValueError, CommandExecutionError, RuntimeError)`
clause of `cli.main` catches the exception. -/
def caughtByHandler : PyError → Bool
  | .valueError _ => true
  | .commandExecutionError _ => true
  | .runtimeError _ => true
  | .otherError _ => false

/-- The `try`/`except` wrapper of `cli.main` around the dispatched
operation: caught exceptions become `parser.exit(status=1,
message=f"Error: {exc}\n")`; everything else propagates uncaught. -/
def cliHandle : Except PyError Unit → CliResult
  | .ok _ => .exit0
  | .error e =>
    if caughtByHandler e then
      .exitWithError 1 ("Error: " ++ errMessage e ++ "\n")
    else
      .uncaught e

/-! ### Helper lemmas about quote stripping -/

lemma quoteChar_of_head?_dropWhile {l : List Char} {c : Char}
    (h : (l.dropWhile quoteChar).head? = some c) : quoteChar c = false := by
  have h2 := List.head?_dropWhile_not quoteChar l
  rw [h] at h2
  exact h2

lemma pyStripQuotesL_getLast? {d : List Char} {c : Char}
    (h : (pyStripQuotesL d).getLast? = some c) : quoteChar c = false := by
  unfold pyStripQuotesL at h
  rw [List.getLast?_reverse] at h
  exact quoteChar_of_head?_dropWhile h

lemma pyStripQuotesL_head? {d : List Char} {c : Char}
    (h : (pyStripQuotesL d).head? = some c) : quoteChar c = false := by
  unfold pyStripQuotesL at h
  rw [List.head?_reverse] at h
  obtain ⟨r, hr⟩ :=
    List.dropWhile_suffix (l := (d.dropWhile quoteChar).reverse) quoteChar
  have hne : (d.dropWhile quoteChar).reverse.dropWhile quoteChar ≠ [] := by
    intro hnil
    rw [hnil] at h
    exact Option.noConfusion h
  have hlast :
      ((d.dropWhile quoteChar).reverse).getLast? = some c := by
    rw [← hr, List.getLast?_append_of_ne_nil r hne]
    exact h
  rw [List.getLast?_reverse] at hlast
  exact quoteChar_of_head?_dropWhile hlast

/-! ### Claim theorems -/

/-- C1: for every `StartOptions` value in which `head` and `worker` are
equal (both false or both true), `start_cluster` raises
`ValueError "Specify exactly one of --head or --worker"` and never calls
the Process Runner (in the embedding, it returns `.error` and no `.ok`
argument vector is produced). -/
theorem c1_equal_flags_validation_error (opts : StartOptions)
    (h : opts.head = opts.worker) :
    start_cluster opts = .error "Specify exactly one of --head or --worker" := by
  unfold start_cluster
  simp [h]

theorem c1_witness :
    StartOptions.head ⟨false, false, none, "0.0.0.0"⟩ =
      StartOptions.worker ⟨false, false, none, "0.0.0.0"⟩ ∧
    start_cluster ⟨false, false, none, "0.0.0.0"⟩ =
      .error "Specify exactly one of --head or --worker" :=
  ⟨rfl, c1_equal_flags_validation_error ⟨false, false, none, "0.0.0.0"⟩ rfl⟩

/-- C2: when no explicit model identifier is given, `deploy_model` derives
the identifier with `_derive_model_id` (substring after the last `/`,
`"-Instruct"` occurrences removed, underscores replaced by hyphens); in
particular source `Qwen/Qwen2.5-14B-Instruct-AWQ` derives exactly
`Qwen2.5-14B-AWQ`. -/
theorem c2_derived_model_id :
    (∀ (ms host : String) (port tp pp : Nat) (gpu : Rat) (mml : Nat)
        (ri : Option String),
      (deploy_model ms none host port tp pp gpu mml
          ri).llm_config.model_loading_config.model_id = _derive_model_id ms) ∧
    _derive_model_id "Qwen/Qwen2.5-14B-Instruct-AWQ" = "Qwen2.5-14B-AWQ" :=
  ⟨fun _ _ _ _ _ _ _ _ => rfl, by decide⟩

/-- C3: two `deploy_model` calls differing only in `runtime_interface`
produce identical environment-variable maps, and the collective-backend
interface variables are always the hardcoded `"enp132s0"`: the flag has no
effect on the configuration. -/
theorem c3_runtime_interface_dead_code :
    (∀ (ms : String) (mid : Option String) (host : String) (port tp pp : Nat)
        (gpu : Rat) (mml : Nat) (i1 i2 : Option String),
      (deploy_model ms mid host port tp pp gpu mml i1).llm_config.env_vars =
        (deploy_model ms mid host port tp pp gpu mml i2).llm_config.env_vars) ∧
    (∀ (ms : String) (mid : Option String) (host : String) (port tp pp : Nat)
        (gpu : Rat) (mml : Nat) (ri : Option String),
      ((deploy_model ms mid host port tp pp gpu mml
          ri).llm_config.env_vars.lookup "GLOO_SOCKET_IFNAME" =
        some "enp132s0") ∧
      ((deploy_model ms mid host port tp pp gpu mml
          ri).llm_config.env_vars.lookup "NCCL_SOCKET_IFNAME" =
        some "enp132s0")) :=
  ⟨fun _ _ _ _ _ _ _ _ _ _ => rfl, fun _ _ _ _ _ _ _ _ _ => ⟨rfl, rfl⟩⟩

/-- C4: for worker mode with address `"'10.0.0.5:6379'"` the Process Runner
receives exactly `--address=10.0.0.5:6379`; in general the address argument
is the Python-`strip("'\"")` of the given address, whose first and last
characters are never quote characters. -/
theorem c4_worker_address_quotes_stripped :
    (start_cluster ⟨false, true, some "'10.0.0.5:6379'", "0.0.0.0"⟩ =
      .ok ["start", "--address=10.0.0.5:6379"]) ∧
    (∀ opts : StartOptions, opts.head = false → opts.worker = true →
      ∀ a : String, opts.address = some a → a.isEmpty = false →
        start_cluster opts = .ok ["start", "--address=" ++ stripQuotes a]) ∧
    (∀ (a : String) (c : Char),
      ((stripQuotes a).data.head? = some c → quoteChar c = false) ∧
      ((stripQuotes a).data.getLast? = some c → quoteChar c = false)) := by
  refine ⟨rfl, ?_, ?_⟩
  · intro opts hh hw a ha hne
    unfold start_cluster
    rw [hh, hw, ha]
    simp [addressTruthy, hne]
  · intro a c
    exact ⟨pyStripQuotesL_head?, pyStripQuotesL_getLast?⟩

theorem c4_witness :
    start_cluster ⟨false, true, some "\"10.0.0.9:6379\"", "0.0.0.0"⟩ =
      .ok ["start", "--address=10.0.0.9:6379"] :=
  (c4_worker_address_quotes_stripped.2.1
      ⟨false, true, some "\"10.0.0.9:6379\"", "0.0.0.0"⟩ rfl rfl
      "\"10.0.0.9:6379\"" rfl rfl).trans rfl

/-- C5: for every `StartOptions` with `worker = true`, `head = false` and
an absent or empty address, `start_cluster` raises
`ValueError "--address is required when starting a worker node"` and never
calls the Process Runner. -/
theorem c5_worker_missing_address_error (opts : StartOptions)
    (hw : opts.worker = true) (hh : opts.head = false)
    (ha : opts.address = none ∨ opts.address = some "") :
    start_cluster opts =
      .error "--address is required when starting a worker node" := by
  unfold start_cluster
  rcases ha with h | h <;>
    rw [hh, hw, h] <;>
    simp [show addressTruthy none = false from rfl,
          show addressTruthy (some "") = false from rfl]

theorem c5_witness :
    StartOptions.worker ⟨false, true, some "", "0.0.0.0"⟩ = true ∧
    start_cluster ⟨false, true, some "", "0.0.0.0"⟩ =
      .error "--address is required when starting a worker node" :=
  ⟨rfl, c5_worker_missing_address_error ⟨false, true, some "", "0.0.0.0"⟩
    rfl rfl (Or.inr rfl)⟩

/-- C6: for every argument list and environment, if the invoked external
process (primary invocation, or fallback invocation after the primary is
absent) exits with a non-zero code, `_run_ray_subprocess` raises
`CommandExecutionError` whose message carries the attempted command's
argument vector; an exit code of zero returns normally. -/
theorem c6_runner_error_mapping (env : ExecEnv) (args : List String) :
    (∀ c : Nat, env.run (primaryCommand env args) = some c →
      (c = 0 → _run_ray_subprocess env args = .success) ∧
      (c ≠ 0 → _run_ray_subprocess env args =
        .cmdError ("Ray command failed: " ++
          joinArgs (primaryCommand env args)))) ∧
    (env.run (primaryCommand env args) = none →
      ∀ c : Nat, env.run (fallbackCommand env args) = some c →
        (c = 0 → _run_ray_subprocess env args = .success) ∧
        (c ≠ 0 → _run_ray_subprocess env args =
          .cmdError ("Ray command failed: " ++
            joinArgs (fallbackCommand env args)))) := by
  constructor
  · intro c hc
    constructor
    · intro h0
      subst h0
      unfold _run_ray_subprocess
      rw [hc]
    · intro hne
      unfold _run_ray_subprocess
      rw [hc]
      cases c with
      | zero => exact absurd rfl hne
      | succ n => rfl
  · intro hp c hf
    constructor
    · intro h0
      subst h0
      unfold _run_ray_subprocess
      rw [hp, hf]
    · intro hne
      unfold _run_ray_subprocess
      rw [hp, hf]
      cases c with
      | zero => exact absurd rfl hne
      | succ n => rfl

/-- Environment in which `ray` is on the search path and `ray status`
exits with code 1 (used to witness C6). -/
def envRayFails : ExecEnv :=
  { rayOnPath := true, rayPath := "ray", sysExecutable := "python3",
    run := fun cmd => if cmd = ["ray", "status"] then some 1 else none }

theorem c6_witness :
    envRayFails.run (primaryCommand envRayFails ["status"]) = some 1 ∧
    _run_ray_subprocess envRayFails ["status"] =
      .cmdError "Ray command failed: ray status" := by
  refine ⟨rfl, ?_⟩
  have h := ((c6_runner_error_mapping envRayFails ["status"]).1 1 rfl).2
    (by decide)
  rw [h]
  rfl

/-- C7: whenever the sanitized derivation is empty (for example a source
ending in `/`, or the empty source), `deploy_model` with no explicit model
identifier falls back to the constant identifier `"llm"`. -/
theorem c7_empty_derivation_falls_back :
    (∀ (ms host : String) (port tp pp : Nat) (gpu : Rat) (mml : Nat)
        (ri : Option String),
      _derive_sanitized ms = [] →
      (deploy_model ms none host port tp pp gpu mml
          ri).llm_config.model_loading_config.model_id = "llm") ∧
    _derive_model_id "Qwen/" = "llm" ∧ _derive_model_id "" = "llm" := by
  refine ⟨?_, by decide, by decide⟩
  intro ms host port tp pp gpu mml ri h
  show _derive_model_id ms = "llm"
  simp [_derive_model_id, h]

theorem c7_witness :
    _derive_sanitized "a/" = [] ∧
    (deploy_model "a/" none "0.0.0.0" 8000 1 2 (9 / 10 : Rat) 22000
        none).llm_config.model_loading_config.model_id = "llm" :=
  ⟨by decide, c7_empty_derivation_falls_back.1 "a/" "0.0.0.0" 8000 1 2
    (9 / 10) 22000 none (by decide)⟩

/-- C8: in the `start --web` path, with docker, migrate and npm-build all
skipped, the trace launches exactly one subprocess (the uvicorn server)
and ends waiting on it with no error; with the build step enabled and
failing, the trace ends by terminating the server and the error
propagates. -/
theorem c8_web_path (env : WebEnv) (host : String) (port : Nat) :
    (webStart ⟨true, true, true, host, port⟩ env =
        ([.spawnProc (uvicornCmd env.sysExecutable host port), .waitProc],
          false) ∧
      launchCount (webStart ⟨true, true, true, host, port⟩ env).1 = 1) ∧
    (env.npmOk = false →
      webStart ⟨true, true, false, host, port⟩ env =
        ([.spawnProc (uvicornCmd env.sysExecutable host port),
          .runSync npmCmd false, .terminateProc], true)) := by
  refine ⟨⟨?_, ?_⟩, ?_⟩
  · unfold webStart
    simp
  · unfold webStart
    simp [launchCount, isLaunch]
  · intro hnpm
    unfold webStart
    simp [hnpm]

/-- Environment in which the preparatory steps succeed but
`npm run build` fails (used to witness C8). -/
def webEnvNpmFails : WebEnv :=
  { dockerOk := true, migrateOk := true, npmOk := false,
    sysExecutable := "python3" }

theorem c8_witness :
    webStart ⟨true, true, false, "0.0.0.0", 8000⟩ webEnvNpmFails =
      ([.spawnProc (uvicornCmd "python3" "0.0.0.0" 8000),
        .runSync npmCmd false, .terminateProc], true) :=
  (c8_web_path webEnvNpmFails "0.0.0.0" 8000).2 rfl

/-- C9: the top-level handler of `cli.main` maps a raised `ValueError`,
`CommandExecutionError` or `RuntimeError` to exit status 1 with message
`Error: <message>`, while any other exception propagates uncaught. -/
theorem c9_cli_exception_mapping :
    (∀ m : String, cliHandle (.error (.valueError m)) =
        .exitWithError 1 ("Error: " ++ m ++ "\n")) ∧
    (∀ m : String, cliHandle (.error (.commandExecutionError m)) =
        .exitWithError 1 ("Error: " ++ m ++ "\n")) ∧
    (∀ m : String, cliHandle (.error (.runtimeError m)) =
        .exitWithError 1 ("Error: " ++ m ++ "\n")) ∧
    (∀ m : String, cliHandle (.error (.otherError m)) =
        .uncaught (.otherError m)) :=
  ⟨fun _ => rfl, fun _ => rfl, fun _ => rfl, fun _ => rfl⟩

/-- C10: every `deploy_model` call, regardless of all arguments, places the
entry `VLLM_USE_V1 = "1"` into the runtime environment-variable map of the
serving configuration. -/
theorem c10_vllm_use_v1_always_set :
    ∀ (ms : String) (mid : Option String) (host : String) (port tp pp : Nat)
      (gpu : Rat) (mml : Nat) (ri : Option String),
      (deploy_model ms mid host port tp pp gpu mml
        ri).llm_config.env_vars.lookup "VLLM_USE_V1" = some "1" :=
  fun _ _ _ _ _ _ _ _ _ => rfl

end Dillema
